import Mathlib

/-!
Shallow embedding of `src/main.py` (variant A of the homework-tutoring demo):
the pipeline `ask_question` that drives lookup → guardrail → classifier →
access control → tutor, short-circuiting on rejection.

External effects (the SQLite lookup and each `Runner.run` call to a
language-model agent) are modelled as oracles packaged in an `Env`; a run of
the pipeline is a pure function of the environment and the three textual
inputs, returning the ordered trace of side effects (calls and prints)
together with either normal termination or an uncaught exception.
-/

/-- A row of the `students` table: `SELECT subject, age FROM students WHERE name = ?`. -/
structure Student where
  subject : String
  age : Int
  deriving DecidableEq

/-- Output schema of the guardrail agent (`HomeworkOutput` in the source). -/
structure HomeworkOutput where
  is_homework : Bool
  reasoning : String
  deriving DecidableEq

/-- Output schema of the classifier agent (`ClassificationOutput` in the source). -/
structure ClassificationOutput where
  subject : String
  deriving DecidableEq

/-- Output schema of the access-control agent (`AccessControlOutput` in the source). -/
structure AccessControlOutput where
  allowed : Bool
  reasoning : String
  deriving DecidableEq

/-- The statically constructed agents of the script. Only the constructor
arguments that the source actually passes are modelled; every agent is built
without `input_guardrails`, which the embedding records as the empty list. -/
structure Agent where
  name : String
  instructions : String
  handoff_description : Option String
  input_guardrails : List String
  deriving DecidableEq

def guardrail_agent : Agent :=
  ⟨"Guardrail check",
   "Check if the user is asking about homework. Respond with is_homework true/false and reasoning.",
   none, []⟩

def classifier_agent : Agent :=
  ⟨"Classifier Agent",
   "Classify the homework question as either \x27math\x27 or \x27history\x27. Respond with the subject field as exactly \x27math\x27 or \x27history\x27.",
   none, []⟩

def math_tutor_agent : Agent :=
  ⟨"Math Tutor",
   "You provide the final numeric answer only.",
   some "Specialist agent for math questions", []⟩

def history_tutor_agent : Agent :=
  ⟨"History Tutor",
   "You provide assistance with historical queries. Explain important events and context clearly.",
   some "Specialist agent for historical questions", []⟩

def access_control_agent : Agent :=
  ⟨"Access Control Agent",
   "You are an access control checker. You are given a natural-language policy, the student\x27s subject and age, and the type of question (math or history). Respond ONLY with allowed true/false and reasoning.",
   none, []⟩

/-- Exceptions observable inside `ask_question`'s `try` block.
`valueError` is raised by `get_student` for a missing row;
`tripwire` stands for `InputGuardrailTripwireTriggered`; `other` covers every
further fault an external call may raise (connection errors, malformed or
schema-violating model output — in the SDK these are not `ValueError`s). -/
inductive Exn where
  | tripwire
  | valueError (msg : String)
  | other (msg : String)
  deriving DecidableEq

/-- The `context=` dictionary passed to the classifier and tutor calls. -/
structure RunContext where
  student_subject : String
  student_age : Int
  deriving DecidableEq

/-- Oracle environment: the student table plus one oracle per external call
site. Each oracle yields the call's structured output or the exception the
call raises. -/
structure Env where
  students : String → Option Student
  guardrailCall : String → Except Exn HomeworkOutput
  classifierCall : String → RunContext → Except Exn ClassificationOutput
  accessControlCall : String → Except Exn AccessControlOutput
  tutorCall : Agent → String → RunContext → Except Exn String

/-- Well-formedness of an environment, recording documented behavior of the
external systems: `Runner.run` raises `InputGuardrailTripwireTriggered` only
for an agent with attached input guardrails (every agent here has none), and
the faults of the model calls (API failures, malformed output) are not Python
`ValueError`s. Hence the stage oracles fail only with `Exn.other`. -/
structure EnvWF (env : Env) : Prop where
  guardrail_fault : ∀ q e, env.guardrailCall q = Except.error e → ∃ m, e = Exn.other m
  classifier_fault : ∀ q c e, env.classifierCall q c = Except.error e → ∃ m, e = Exn.other m
  access_fault : ∀ s e, env.accessControlCall s = Except.error e → ∃ m, e = Exn.other m
  tutor_fault : ∀ a q c e, env.tutorCall a q c = Except.error e → ∃ m, e = Exn.other m

/-- One observable effect of a run: a database lookup, an agent invocation via
`Runner.run`, an invocation of an input-guardrail function, or one of the six
`print` statements of the script, each with the values it interpolates. -/
inductive Event where
  | dbLookup (name : String)
  | runAgent (agent : Agent) (input : String)
  | runGuardrailFn (fnName : String) (input : String)
  | printBlocked (reasoning : String)
  | printDenied (reasoning : String)
  | printAsked (name : String) (age : Int) (question : String)
  | printAnswer (text : String)
  | printTripwire (name : String) (question : String)
  | printValueError (msg : String)
  deriving DecidableEq

/-- `get_student`: exact-match lookup that returns the row or raises
`ValueError(f"No student found with name ...")`. -/
def get_student (env : Env) (student_name : String) : List Event × Except Exn Student :=
  ([Event.dbLookup student_name],
    match env.students student_name with
    | some row => Except.ok row
    | none => Except.error (Exn.valueError ("No student found with name " ++ student_name)))

/-- Result type of an input-guardrail function (`GuardrailFunctionOutput`). -/
structure GuardrailFunctionOutput where
  output_info : HomeworkOutput
  tripwire_triggered : Bool
  deriving DecidableEq

/-- `homework_guardrail`: runs the guardrail agent on the input and trips the
wire when `is_homework` is false. Defined in the script but never attached to
any agent, so no run of `ask_question` ever invokes it. -/
def homework_guardrail (env : Env) (input_data : String) : Except Exn GuardrailFunctionOutput :=
  match env.guardrailCall input_data with
  | Except.error e => Except.error e
  | Except.ok final_output => Except.ok ⟨final_output, !final_output.is_homework⟩

/-- Python's `str.lower()` as used on the classifier's subject, modelled as
character-wise lowercasing of the string. -/
def lower (s : String) : String :=
  ⟨s.data.map Char.toLower⟩

/-- The prompt string handed to the access-control agent (the f-string at the
step-3 call site). -/
def ac_prompt (policy subject : String) (age : Int) (question_subject : String) : String :=
  "Policy: " ++ policy ++ "\nStudent subject: " ++ subject ++
    "\nStudent age: " ++ toString age ++ "\nQuestion subject: " ++ question_subject

/-- The body of `ask_question`'s `try` block: lookup, guardrail, classifier,
access control, tutor, each short-circuiting exactly as the source does.
Returns the trace of effects and either normal completion or the exception
that escapes the block. -/
def tryBody (env : Env) (student_name question policy : String) :
    List Event × Except Exn Unit :=
  match get_student env student_name with
  | (tr0, Except.error e) => (tr0, Except.error e)
  | (tr0, Except.ok student) =>
    let tr1 := tr0 ++ [Event.runAgent guardrail_agent question]
    match env.guardrailCall question with
    | Except.error e => (tr1, Except.error e)
    | Except.ok gr_output =>
      if gr_output.is_homework = false then
        (tr1 ++ [Event.printBlocked gr_output.reasoning], Except.ok ())
      else
        let ctx : RunContext := ⟨student.subject, student.age⟩
        let tr2 := tr1 ++ [Event.runAgent classifier_agent question]
        match env.classifierCall question ctx with
        | Except.error e => (tr2, Except.error e)
        | Except.ok classification =>
          let question_subject := lower classification.subject
          let ac_input := ac_prompt policy student.subject student.age question_subject
          let tr3 := tr2 ++ [Event.runAgent access_control_agent ac_input]
          match env.accessControlCall ac_input with
          | Except.error e => (tr3, Except.error e)
          | Except.ok ac_output =>
            if ac_output.allowed = false then
              (tr3 ++ [Event.printDenied ac_output.reasoning], Except.ok ())
            else
              let tutor := if question_subject == "math" then math_tutor_agent else history_tutor_agent
              let tr4 := tr3 ++ [Event.runAgent tutor question]
              match env.tutorCall tutor question ctx with
              | Except.error e => (tr4, Except.error e)
              | Except.ok answer_text =>
                (tr4 ++ [Event.printAsked student_name student.age question,
                         Event.printAnswer answer_text], Except.ok ())

/-- `ask_question`: the `try` body wrapped in the two `except` clauses.
`InputGuardrailTripwireTriggered` and `ValueError` are caught and turned into
a printed message; every other exception propagates to the caller. -/
def ask_question (env : Env) (student_name question policy : String) :
    List Event × Except Exn Unit :=
  match tryBody env student_name question policy with
  | (tr, Except.ok ()) => (tr, Except.ok ())
  | (tr, Except.error Exn.tripwire) =>
      (tr ++ [Event.printTripwire student_name question], Except.ok ())
  | (tr, Except.error (Exn.valueError msg)) =>
      (tr ++ [Event.printValueError msg], Except.ok ())
  | (tr, Except.error (Exn.other msg)) => (tr, Except.error (Exn.other msg))

/-- The stage-invocation predicate: the trace contains a `Runner.run` of the
given agent. -/
def invokes (tr : List Event) (a : Agent) : Prop :=
  ∃ inp, Event.runAgent a inp ∈ tr

/-- Terminal-outcome events: the four prints that report blocked, denied,
not-found, or the final answer. -/
def isTerminal : Event → Bool
  | Event.printBlocked _ => true
  | Event.printDenied _ => true
  | Event.printValueError _ => true
  | Event.printAnswer _ => true
  | _ => false

/-- Number of terminal outcomes reported in a trace. -/
def countTerminal (tr : List Event) : Nat :=
  tr.countP isTerminal

/-- Number of tutor-stage invocations in a trace. -/
def countTutorRuns (tr : List Event) : Nat :=
  tr.countP fun e =>
    match e with
    | Event.runAgent a _ => decide (a = math_tutor_agent ∨ a = history_tutor_agent)
    | _ => false

/-- Tutor dispatch as performed at step 4 of the script (the conditional
expression choosing the tutor agent from the lowercased subject). -/
def tutorOf (question_subject : String) : Agent :=
  if question_subject == "math" then math_tutor_agent else history_tutor_agent

theorem ask_of_ok (env : Env) (n q p : String) (tr : List Event)
    (h : tryBody env n q p = (tr, Except.ok ())) :
    ask_question env n q p = (tr, Except.ok ()) := by
  unfold ask_question
  rw [h]

theorem ask_of_tripwire (env : Env) (n q p : String) (tr : List Event)
    (h : tryBody env n q p = (tr, Except.error Exn.tripwire)) :
    ask_question env n q p = (tr ++ [Event.printTripwire n q], Except.ok ()) := by
  unfold ask_question
  rw [h]

theorem ask_of_valueError (env : Env) (n q p : String) (tr : List Event) (m : String)
    (h : tryBody env n q p = (tr, Except.error (Exn.valueError m))) :
    ask_question env n q p = (tr ++ [Event.printValueError m], Except.ok ()) := by
  unfold ask_question
  rw [h]

theorem ask_of_other (env : Env) (n q p : String) (tr : List Event) (m : String)
    (h : tryBody env n q p = (tr, Except.error (Exn.other m))) :
    ask_question env n q p = (tr, Except.error (Exn.other m)) := by
  unfold ask_question
  rw [h]

/-- Exhaustive enumeration of the shapes a run of the `try` body can take,
one disjunct per control path of the source. -/
theorem body_cases (env : Env) (n q p : String) :
    (env.students n = none ∧
      tryBody env n q p =
        ([Event.dbLookup n], Except.error (Exn.valueError ("No student found with name " ++ n)))) ∨
    (∃ st e, env.students n = some st ∧ env.guardrailCall q = Except.error e ∧
      tryBody env n q p =
        ([Event.dbLookup n, Event.runAgent guardrail_agent q], Except.error e)) ∨
    (∃ st g, env.students n = some st ∧ env.guardrailCall q = Except.ok g ∧
      g.is_homework = false ∧
      tryBody env n q p =
        ([Event.dbLookup n, Event.runAgent guardrail_agent q,
          Event.printBlocked g.reasoning], Except.ok ())) ∨
    (∃ st g e, env.students n = some st ∧ env.guardrailCall q = Except.ok g ∧
      g.is_homework = true ∧
      env.classifierCall q ⟨st.subject, st.age⟩ = Except.error e ∧
      tryBody env n q p =
        ([Event.dbLookup n, Event.runAgent guardrail_agent q,
          Event.runAgent classifier_agent q], Except.error e)) ∨
    (∃ st g c e, env.students n = some st ∧ env.guardrailCall q = Except.ok g ∧
      g.is_homework = true ∧
      env.classifierCall q ⟨st.subject, st.age⟩ = Except.ok c ∧
      env.accessControlCall (ac_prompt p st.subject st.age (lower c.subject)) = Except.error e ∧
      tryBody env n q p =
        ([Event.dbLookup n, Event.runAgent guardrail_agent q,
          Event.runAgent classifier_agent q,
          Event.runAgent access_control_agent (ac_prompt p st.subject st.age (lower c.subject))],
          Except.error e)) ∨
    (∃ st g c a, env.students n = some st ∧ env.guardrailCall q = Except.ok g ∧
      g.is_homework = true ∧
      env.classifierCall q ⟨st.subject, st.age⟩ = Except.ok c ∧
      env.accessControlCall (ac_prompt p st.subject st.age (lower c.subject)) = Except.ok a ∧
      a.allowed = false ∧
      tryBody env n q p =
        ([Event.dbLookup n, Event.runAgent guardrail_agent q,
          Event.runAgent classifier_agent q,
          Event.runAgent access_control_agent (ac_prompt p st.subject st.age (lower c.subject)),
          Event.printDenied a.reasoning], Except.ok ())) ∨
    (∃ st g c a e, env.students n = some st ∧ env.guardrailCall q = Except.ok g ∧
      g.is_homework = true ∧
      env.classifierCall q ⟨st.subject, st.age⟩ = Except.ok c ∧
      env.accessControlCall (ac_prompt p st.subject st.age (lower c.subject)) = Except.ok a ∧
      a.allowed = true ∧
      env.tutorCall (tutorOf (lower c.subject)) q ⟨st.subject, st.age⟩ = Except.error e ∧
      tryBody env n q p =
        ([Event.dbLookup n, Event.runAgent guardrail_agent q,
          Event.runAgent classifier_agent q,
          Event.runAgent access_control_agent (ac_prompt p st.subject st.age (lower c.subject)),
          Event.runAgent (tutorOf (lower c.subject)) q], Except.error e)) ∨
    (∃ st g c a ans, env.students n = some st ∧ env.guardrailCall q = Except.ok g ∧
      g.is_homework = true ∧
      env.classifierCall q ⟨st.subject, st.age⟩ = Except.ok c ∧
      env.accessControlCall (ac_prompt p st.subject st.age (lower c.subject)) = Except.ok a ∧
      a.allowed = true ∧
      env.tutorCall (tutorOf (lower c.subject)) q ⟨st.subject, st.age⟩ = Except.ok ans ∧
      tryBody env n q p =
        ([Event.dbLookup n, Event.runAgent guardrail_agent q,
          Event.runAgent classifier_agent q,
          Event.runAgent access_control_agent (ac_prompt p st.subject st.age (lower c.subject)),
          Event.runAgent (tutorOf (lower c.subject)) q,
          Event.printAsked n st.age q, Event.printAnswer ans], Except.ok ())) := by
  cases hs : env.students n with
  | none =>
    refine Or.inl ⟨rfl, ?_⟩
    unfold tryBody get_student
    rw [hs]
  | some st =>
    cases hg : env.guardrailCall q with
    | error e =>
      refine Or.inr (Or.inl ⟨st, e, rfl, rfl, ?_⟩)
      unfold tryBody get_student
      rw [hs, hg]
      simp
    | ok g =>
      cases hh : g.is_homework with
      | false =>
        refine Or.inr (Or.inr (Or.inl ⟨st, g, rfl, rfl, hh, ?_⟩))
        unfold tryBody get_student
        rw [hs, hg]
        simp [hh]
      | true =>
        cases hc : env.classifierCall q ⟨st.subject, st.age⟩ with
        | error e =>
          refine Or.inr (Or.inr (Or.inr (Or.inl ⟨st, g, e, rfl, rfl, hh, hc, ?_⟩)))
          unfold tryBody get_student
          rw [hs, hg]
          simp [hh, hc]
        | ok c =>
          cases ha : env.accessControlCall (ac_prompt p st.subject st.age (lower c.subject)) with
          | error e =>
            refine Or.inr (Or.inr (Or.inr (Or.inr (Or.inl ⟨st, g, c, e, rfl, rfl, hh, hc, ha, ?_⟩))))
            unfold tryBody get_student
            rw [hs, hg]
            simp [hh, hc, ha]
          | ok a =>
            cases hal : a.allowed with
            | false =>
              refine Or.inr (Or.inr (Or.inr (Or.inr (Or.inr (Or.inl
                ⟨st, g, c, a, rfl, rfl, hh, hc, ha, hal, ?_⟩)))))
              unfold tryBody get_student
              rw [hs, hg]
              simp [hh, hc, ha, hal]
            | true =>
              cases ht : env.tutorCall (tutorOf (lower c.subject)) q ⟨st.subject, st.age⟩ with
              | error e =>
                refine Or.inr (Or.inr (Or.inr (Or.inr (Or.inr (Or.inr (Or.inl
                  ⟨st, g, c, a, e, rfl, rfl, hh, hc, ha, hal, ht, ?_⟩))))))
                unfold tryBody get_student
                rw [hs, hg]
                cases hq : lower c.subject == "math" <;>
                  (simp [tutorOf, hq] at ht
                   simp [hh, hc, ha, hal, hq, tutorOf, ht])
              | ok ans =>
                refine Or.inr (Or.inr (Or.inr (Or.inr (Or.inr (Or.inr (Or.inr
                  ⟨st, g, c, a, ans, rfl, rfl, hh, hc, ha, hal, ht, ?_⟩))))))
                unfold tryBody get_student
                rw [hs, hg]
                cases hq : lower c.subject == "math" <;>
                  (simp [tutorOf, hq] at ht
                   simp [hh, hc, ha, hal, hq, tutorOf, ht])

theorem classifier_ne_guardrail : classifier_agent ≠ guardrail_agent := by decide

theorem access_ne_guardrail : access_control_agent ≠ guardrail_agent := by decide

theorem access_ne_classifier : access_control_agent ≠ classifier_agent := by decide

theorem math_ne_guardrail : math_tutor_agent ≠ guardrail_agent := by decide

theorem math_ne_classifier : math_tutor_agent ≠ classifier_agent := by decide

theorem math_ne_access : math_tutor_agent ≠ access_control_agent := by decide

theorem history_ne_guardrail : history_tutor_agent ≠ guardrail_agent := by decide

theorem history_ne_classifier : history_tutor_agent ≠ classifier_agent := by decide

theorem history_ne_access : history_tutor_agent ≠ access_control_agent := by decide

theorem math_ne_history : math_tutor_agent ≠ history_tutor_agent := by decide

theorem history_ne_math : history_tutor_agent ≠ math_tutor_agent := by decide

/-- C1: in every run in which the guardrail stage returns a verdict with
`is_homework = false`, the run terminates normally with the blocked outcome
carrying the guardrail's reasoning, and the classification, access-control and
tutor stages are never invoked. -/
theorem C1_guardrail_blocks (env : Env) (n q p : String) (st : Student) (g : HomeworkOutput)
    (hs : env.students n = some st)
    (hg : env.guardrailCall q = Except.ok g)
    (hh : g.is_homework = false) :
    ask_question env n q p =
      ([Event.dbLookup n, Event.runAgent guardrail_agent q, Event.printBlocked g.reasoning],
        Except.ok ()) ∧
    ¬ invokes (ask_question env n q p).1 classifier_agent ∧
    ¬ invokes (ask_question env n q p).1 access_control_agent ∧
    ¬ invokes (ask_question env n q p).1 math_tutor_agent ∧
    ¬ invokes (ask_question env n q p).1 history_tutor_agent := by
  have hb : tryBody env n q p =
      ([Event.dbLookup n, Event.runAgent guardrail_agent q, Event.printBlocked g.reasoning],
        Except.ok ()) := by
    unfold tryBody get_student
    rw [hs, hg]
    simp [hh]
  have hr := ask_of_ok env n q p _ hb
  refine ⟨hr, ?_, ?_, ?_, ?_⟩ <;>
    simp [invokes, hr, classifier_ne_guardrail, access_ne_guardrail, math_ne_guardrail,
      history_ne_guardrail]

theorem ask_trace_extends (env : Env) (n q p : String) (tr : List Event) (r : Except Exn Unit)
    (h : tryBody env n q p = (tr, r)) :
    ∀ ev ∈ tr, ev ∈ (ask_question env n q p).1 := by
  intro ev hev
  unfold ask_question
  rw [h]
  cases r with
  | ok u =>
    cases u
    simpa using hev
  | error e => cases e <;> simp [hev]

/-- C2: in every run in which the access-control stage returns a verdict with
`allowed = false`, the run terminates normally with the denied outcome
carrying the access-control reasoning, and no tutor stage is invoked. -/
theorem C2_access_denies (env : Env) (n q p : String) (st : Student)
    (g : HomeworkOutput) (c : ClassificationOutput) (a : AccessControlOutput)
    (hs : env.students n = some st)
    (hg : env.guardrailCall q = Except.ok g)
    (hh : g.is_homework = true)
    (hc : env.classifierCall q ⟨st.subject, st.age⟩ = Except.ok c)
    (ha : env.accessControlCall (ac_prompt p st.subject st.age (lower c.subject)) = Except.ok a)
    (hal : a.allowed = false) :
    ask_question env n q p =
      ([Event.dbLookup n, Event.runAgent guardrail_agent q, Event.runAgent classifier_agent q,
        Event.runAgent access_control_agent (ac_prompt p st.subject st.age (lower c.subject)),
        Event.printDenied a.reasoning], Except.ok ()) ∧
    ¬ invokes (ask_question env n q p).1 math_tutor_agent ∧
    ¬ invokes (ask_question env n q p).1 history_tutor_agent := by
  have hb : tryBody env n q p =
      ([Event.dbLookup n, Event.runAgent guardrail_agent q, Event.runAgent classifier_agent q,
        Event.runAgent access_control_agent (ac_prompt p st.subject st.age (lower c.subject)),
        Event.printDenied a.reasoning], Except.ok ()) := by
    unfold tryBody get_student
    rw [hs, hg]
    simp [hh, hc, ha, hal]
  have hr := ask_of_ok env n q p _ hb
  refine ⟨hr, ?_, ?_⟩ <;>
    simp [invokes, hr, math_ne_guardrail, math_ne_classifier, math_ne_access,
      history_ne_guardrail, history_ne_classifier, history_ne_access]

/-- C3: for every student name missing from the table, the run reports the
not-found message and invokes no pipeline stage at all. -/
theorem C3_unknown_student (env : Env) (n q p : String)
    (hs : env.students n = none) :
    ask_question env n q p =
      ([Event.dbLookup n, Event.printValueError ("No student found with name " ++ n)],
        Except.ok ()) ∧
    ∀ a inp, Event.runAgent a inp ∉ (ask_question env n q p).1 := by
  have hb : tryBody env n q p =
      ([Event.dbLookup n], Except.error (Exn.valueError ("No student found with name " ++ n))) := by
    unfold tryBody get_student
    rw [hs]
  have hr := ask_of_valueError env n q p _ _ hb
  constructor
  · simpa using hr
  · simp [hr]

/-- C4: for every run with a known student, a homework-qualifying guardrail
verdict and an allowing access-control verdict, exactly one tutor stage is
invoked, chosen deterministically from the classified subject ("math" → math
tutor, "history" → history tutor), and that tutor's text is the printed
answer. -/
theorem C4_tutor_dispatch (env : Env) (n q p : String) (st : Student)
    (g : HomeworkOutput) (c : ClassificationOutput) (a : AccessControlOutput) (ans : String)
    (hs : env.students n = some st)
    (hg : env.guardrailCall q = Except.ok g)
    (hh : g.is_homework = true)
    (hc : env.classifierCall q ⟨st.subject, st.age⟩ = Except.ok c)
    (ha : env.accessControlCall (ac_prompt p st.subject st.age (lower c.subject)) = Except.ok a)
    (hal : a.allowed = true)
    (ht : env.tutorCall (tutorOf (lower c.subject)) q ⟨st.subject, st.age⟩ = Except.ok ans) :
    ask_question env n q p =
      ([Event.dbLookup n, Event.runAgent guardrail_agent q, Event.runAgent classifier_agent q,
        Event.runAgent access_control_agent (ac_prompt p st.subject st.age (lower c.subject)),
        Event.runAgent (tutorOf (lower c.subject)) q,
        Event.printAsked n st.age q, Event.printAnswer ans], Except.ok ()) ∧
    countTutorRuns (ask_question env n q p).1 = 1 ∧
    (lower c.subject = "math" → tutorOf (lower c.subject) = math_tutor_agent) ∧
    (lower c.subject = "history" → tutorOf (lower c.subject) = history_tutor_agent) ∧
    Event.printAnswer ans ∈ (ask_question env n q p).1 := by
  have hb : tryBody env n q p =
      ([Event.dbLookup n, Event.runAgent guardrail_agent q, Event.runAgent classifier_agent q,
        Event.runAgent access_control_agent (ac_prompt p st.subject st.age (lower c.subject)),
        Event.runAgent (tutorOf (lower c.subject)) q,
        Event.printAsked n st.age q, Event.printAnswer ans], Except.ok ()) := by
    unfold tryBody get_student
    rw [hs, hg]
    cases hq : lower c.subject == "math" <;>
      (simp [tutorOf, hq] at ht
       simp [hh, hc, ha, hal, hq, tutorOf, ht])
  have hr := ask_of_ok env n q p _ hb
  refine ⟨hr, ?_, ?_, ?_, ?_⟩
  · cases hq : lower c.subject == "math" <;>
      simp [hr, countTutorRuns, tutorOf, hq, List.countP_cons, List.countP_nil,
        guardrail_agent, classifier_agent, access_control_agent, math_tutor_agent,
        history_tutor_agent]
  · intro hmath
    simp [tutorOf, hmath]
  · intro hhist
    simp [tutorOf, hhist]
  · simp [hr]

/-- C9: tutor dispatch lowercases the classifier's subject and falls back to
the history tutor for every value other than exactly "math"; such a run is
answered, not rejected. -/
theorem C9_history_fallback (env : Env) (n q p : String) (st : Student)
    (g : HomeworkOutput) (c : ClassificationOutput) (a : AccessControlOutput) (ans : String)
    (hs : env.students n = some st)
    (hg : env.guardrailCall q = Except.ok g)
    (hh : g.is_homework = true)
    (hc : env.classifierCall q ⟨st.subject, st.age⟩ = Except.ok c)
    (ha : env.accessControlCall (ac_prompt p st.subject st.age (lower c.subject)) = Except.ok a)
    (hal : a.allowed = true)
    (hq : lower c.subject ≠ "math")
    (ht : env.tutorCall history_tutor_agent q ⟨st.subject, st.age⟩ = Except.ok ans) :
    ask_question env n q p =
      ([Event.dbLookup n, Event.runAgent guardrail_agent q, Event.runAgent classifier_agent q,
        Event.runAgent access_control_agent (ac_prompt p st.subject st.age (lower c.subject)),
        Event.runAgent history_tutor_agent q,
        Event.printAsked n st.age q, Event.printAnswer ans], Except.ok ()) ∧
    invokes (ask_question env n q p).1 history_tutor_agent ∧
    ¬ invokes (ask_question env n q p).1 math_tutor_agent := by
  have hq' : (lower c.subject == "math") = false := by
    simp [hq]
  have hb : tryBody env n q p =
      ([Event.dbLookup n, Event.runAgent guardrail_agent q, Event.runAgent classifier_agent q,
        Event.runAgent access_control_agent (ac_prompt p st.subject st.age (lower c.subject)),
        Event.runAgent history_tutor_agent q,
        Event.printAsked n st.age q, Event.printAnswer ans], Except.ok ()) := by
    unfold tryBody get_student
    rw [hs, hg]
    simp [hh, hc, ha, hal, hq', ht]
  have hr := ask_of_ok env n q p _ hb
  refine ⟨hr, ⟨q, by simp [hr]⟩, ?_⟩
  simp [invokes, hr, math_ne_guardrail, math_ne_classifier, math_ne_access, math_ne_history]

/-- C7: the pipeline is a pure function of its inputs and of the results of
the external calls: two runs with identical inputs and pointwise identical
external-call results produce identical traces and outcomes. -/
theorem C7_deterministic (env1 env2 : Env)
    (hs : ∀ s, env1.students s = env2.students s)
    (hg : ∀ q0, env1.guardrailCall q0 = env2.guardrailCall q0)
    (hc : ∀ q0 c0, env1.classifierCall q0 c0 = env2.classifierCall q0 c0)
    (ha : ∀ s0, env1.accessControlCall s0 = env2.accessControlCall s0)
    (ht : ∀ a0 q0 c0, env1.tutorCall a0 q0 c0 = env2.tutorCall a0 q0 c0)
    (n q p : String) :
    ask_question env1 n q p = ask_question env2 n q p := by
  have he : env1 = env2 := by
    cases env1
    cases env2
    simp only [Env.mk.injEq]
    exact ⟨funext hs, funext hg, funext fun q0 => funext (hc q0), funext ha,
      funext fun a0 => funext fun q0 => funext (ht a0 q0)⟩
  rw [he]

/-- Under a well-formed environment, the observable shapes a full run can
take: not-found, blocked, denied, answered, or an uncaught external fault at
one of the four call stages. -/
theorem run_cases_wf (env : Env) (hwf : EnvWF env) (n q p : String) :
    (env.students n = none ∧
      ask_question env n q p =
        ([Event.dbLookup n, Event.printValueError ("No student found with name " ++ n)],
          Except.ok ())) ∨
    (∃ m, ask_question env n q p =
      ([Event.dbLookup n, Event.runAgent guardrail_agent q], Except.error (Exn.other m))) ∨
    (∃ r, ask_question env n q p =
      ([Event.dbLookup n, Event.runAgent guardrail_agent q, Event.printBlocked r],
        Except.ok ())) ∨
    (∃ m, ask_question env n q p =
      ([Event.dbLookup n, Event.runAgent guardrail_agent q, Event.runAgent classifier_agent q],
        Except.error (Exn.other m))) ∨
    (∃ s m, ask_question env n q p =
      ([Event.dbLookup n, Event.runAgent guardrail_agent q, Event.runAgent classifier_agent q,
        Event.runAgent access_control_agent s], Except.error (Exn.other m))) ∨
    (∃ s r, ask_question env n q p =
      ([Event.dbLookup n, Event.runAgent guardrail_agent q, Event.runAgent classifier_agent q,
        Event.runAgent access_control_agent s, Event.printDenied r], Except.ok ())) ∨
    (∃ s t m, ask_question env n q p =
      ([Event.dbLookup n, Event.runAgent guardrail_agent q, Event.runAgent classifier_agent q,
        Event.runAgent access_control_agent s, Event.runAgent (tutorOf t) q],
        Except.error (Exn.other m))) ∨
    (∃ s t age ans, ask_question env n q p =
      ([Event.dbLookup n, Event.runAgent guardrail_agent q, Event.runAgent classifier_agent q,
        Event.runAgent access_control_agent s, Event.runAgent (tutorOf t) q,
        Event.printAsked n age q, Event.printAnswer ans], Except.ok ())) := by
  rcases body_cases env n q p with
    ⟨h1, hb⟩ | ⟨st, e, h1, h2, hb⟩ | ⟨st, g, h1, h2, h3, hb⟩ |
    ⟨st, g, e, h1, h2, h3, h4, hb⟩ | ⟨st, g, c, e, h1, h2, h3, h4, h5, hb⟩ |
    ⟨st, g, c, a, h1, h2, h3, h4, h5, h6, hb⟩ |
    ⟨st, g, c, a, e, h1, h2, h3, h4, h5, h6, h7, hb⟩ |
    ⟨st, g, c, a, ans, h1, h2, h3, h4, h5, h6, h7, hb⟩
  · refine Or.inl ⟨h1, ?_⟩
    have hr := ask_of_valueError env n q p _ _ hb
    simpa using hr
  · obtain ⟨m, hm⟩ := hwf.guardrail_fault q e h2
    subst hm
    exact Or.inr (Or.inl ⟨m, ask_of_other env n q p _ m hb⟩)
  · exact Or.inr (Or.inr (Or.inl ⟨g.reasoning, ask_of_ok env n q p _ hb⟩))
  · obtain ⟨m, hm⟩ := hwf.classifier_fault q _ e h4
    subst hm
    exact Or.inr (Or.inr (Or.inr (Or.inl ⟨m, ask_of_other env n q p _ m hb⟩)))
  · obtain ⟨m, hm⟩ := hwf.access_fault _ e h5
    subst hm
    exact Or.inr (Or.inr (Or.inr (Or.inr (Or.inl
      ⟨ac_prompt p st.subject st.age (lower c.subject), m, ask_of_other env n q p _ m hb⟩))))
  · exact Or.inr (Or.inr (Or.inr (Or.inr (Or.inr (Or.inl
      ⟨ac_prompt p st.subject st.age (lower c.subject), a.reasoning,
        ask_of_ok env n q p _ hb⟩)))))
  · obtain ⟨m, hm⟩ := hwf.tutor_fault _ _ _ e h7
    subst hm
    exact Or.inr (Or.inr (Or.inr (Or.inr (Or.inr (Or.inr (Or.inl
      ⟨ac_prompt p st.subject st.age (lower c.subject), lower c.subject, m,
        ask_of_other env n q p _ m hb⟩))))))
  · exact Or.inr (Or.inr (Or.inr (Or.inr (Or.inr (Or.inr (Or.inr
      ⟨ac_prompt p st.subject st.age (lower c.subject), lower c.subject, st.age, ans,
        ask_of_ok env n q p _ hb⟩))))))

/-- C5 (amended): every run under a well-formed environment that terminates
normally reports exactly one terminal outcome, and a rejection short-circuits
the pipeline: a blocked run invokes no later stage, a denied run invokes no
tutor and prints no answer, a not-found run invokes no stage at all. -/
theorem C5_one_terminal_outcome (env : Env) (hwf : EnvWF env) (n q p : String) :
    ((ask_question env n q p).2 = Except.ok () →
      countTerminal (ask_question env n q p).1 = 1) ∧
    (∀ r, Event.printBlocked r ∈ (ask_question env n q p).1 →
      ¬ invokes (ask_question env n q p).1 classifier_agent ∧
      ¬ invokes (ask_question env n q p).1 access_control_agent ∧
      ¬ invokes (ask_question env n q p).1 math_tutor_agent ∧
      ¬ invokes (ask_question env n q p).1 history_tutor_agent) ∧
    (∀ r, Event.printDenied r ∈ (ask_question env n q p).1 →
      ¬ invokes (ask_question env n q p).1 math_tutor_agent ∧
      ¬ invokes (ask_question env n q p).1 history_tutor_agent ∧
      ∀ t, Event.printAnswer t ∉ (ask_question env n q p).1) ∧
    (∀ m, Event.printValueError m ∈ (ask_question env n q p).1 →
      ∀ a inp, Event.runAgent a inp ∉ (ask_question env n q p).1) := by
  rcases run_cases_wf env hwf n q p with
    ⟨hn, hr⟩ | ⟨m, hr⟩ | ⟨r0, hr⟩ | ⟨m, hr⟩ | ⟨s, m, hr⟩ | ⟨s, r0, hr⟩ |
    ⟨s, t0, m, hr⟩ | ⟨s, t0, age, ans, hr⟩ <;>
    refine ⟨fun hok => ?_, fun r1 hmem => ?_, fun r1 hmem => ?_, fun m1 hmem => ?_⟩ <;>
    simp_all [countTerminal, isTerminal, invokes, List.countP_cons, List.countP_nil,
      classifier_ne_guardrail, access_ne_guardrail, access_ne_classifier,
      math_ne_guardrail, math_ne_classifier, math_ne_access,
      history_ne_guardrail, history_ne_classifier, history_ne_access,
      math_ne_history, history_ne_math]

/-- C6: only the record-not-found condition is caught and reported; every
other fault from an external call leaves the `try` block uncaught, unchanged
and without any user-facing message, and the tripwire message never occurs. -/
theorem C6_fault_propagation (env : Env) (hwf : EnvWF env) (n q p : String) :
    (∀ e, (ask_question env n q p).2 = Except.error e → ∃ m, e = Exn.other m) ∧
    (∀ m, (tryBody env n q p).2 = Except.error (Exn.other m) →
      ask_question env n q p = ((tryBody env n q p).1, Except.error (Exn.other m))) ∧
    (∀ m, Event.printValueError m ∈ (ask_question env n q p).1 →
      env.students n = none ∧ m = "No student found with name " ++ n) ∧
    (∀ a b, Event.printTripwire a b ∉ (ask_question env n q p).1) := by
  refine ⟨?_, ?_, ?_, ?_⟩
  · intro e he
    rcases run_cases_wf env hwf n q p with
      ⟨hn, hr⟩ | ⟨m, hr⟩ | ⟨r0, hr⟩ | ⟨m, hr⟩ | ⟨s, m, hr⟩ | ⟨s, r0, hr⟩ |
      ⟨s, t0, m, hr⟩ | ⟨s, t0, age, ans, hr⟩ <;>
      rw [hr] at he <;> simp at he <;> exact ⟨_, he.symm⟩
  · intro m hm
    have h2 : tryBody env n q p = ((tryBody env n q p).1, Except.error (Exn.other m)) :=
      Prod.ext rfl hm
    exact ask_of_other env n q p _ m h2
  · intro m hm
    rcases run_cases_wf env hwf n q p with
      ⟨hn, hr⟩ | hrest
    · rw [hr] at hm
      simp at hm
      exact ⟨hn, hm⟩
    · rcases hrest with
        ⟨m0, hr⟩ | ⟨r0, hr⟩ | ⟨m0, hr⟩ | ⟨s, m0, hr⟩ | ⟨s, r0, hr⟩ |
        ⟨s, t0, m0, hr⟩ | ⟨s, t0, age, ans, hr⟩ <;>
        (rw [hr] at hm
         simp at hm)
  · intro a b
    rcases run_cases_wf env hwf n q p with
      ⟨hn, hr⟩ | ⟨m, hr⟩ | ⟨r0, hr⟩ | ⟨m, hr⟩ | ⟨s, m, hr⟩ | ⟨s, r0, hr⟩ |
      ⟨s, t0, m, hr⟩ | ⟨s, t0, age, ans, hr⟩ <;> simp [hr]

/-- C10: no agent carries an input guardrail, so the tripwire handler of
`ask_question` is dead code: `homework_guardrail` is never invoked and the
"is not allowed to ask" message is never printed in any run. -/
theorem C10_tripwire_handler_dead (env : Env) (hwf : EnvWF env) (n q p : String) :
    guardrail_agent.input_guardrails = [] ∧
    classifier_agent.input_guardrails = [] ∧
    math_tutor_agent.input_guardrails = [] ∧
    history_tutor_agent.input_guardrails = [] ∧
    access_control_agent.input_guardrails = [] ∧
    (∀ fn inp, Event.runGuardrailFn fn inp ∉ (ask_question env n q p).1) ∧
    (∀ a b, Event.printTripwire a b ∉ (ask_question env n q p).1) := by
  refine ⟨rfl, rfl, rfl, rfl, rfl, ?_, ?_⟩ <;>
  · intro x y
    rcases run_cases_wf env hwf n q p with
      ⟨hn, hr⟩ | ⟨m, hr⟩ | ⟨r0, hr⟩ | ⟨m, hr⟩ | ⟨s, m, hr⟩ | ⟨s, r0, hr⟩ |
      ⟨s, t0, m, hr⟩ | ⟨s, t0, age, ans, hr⟩ <;> simp [hr]

/-- C8: every run that reaches the authorization stage hands the
access-control call exactly the policy text, the student's registered subject
and age, and the classified (lowercased) question subject, and the returned
`allowed` boolean alone decides whether the run is denied. -/
theorem C8_access_control_inputs (env : Env) (n q p : String) (st : Student)
    (g : HomeworkOutput) (c : ClassificationOutput) (a : AccessControlOutput)
    (hs : env.students n = some st)
    (hg : env.guardrailCall q = Except.ok g)
    (hh : g.is_homework = true)
    (hc : env.classifierCall q ⟨st.subject, st.age⟩ = Except.ok c)
    (ha : env.accessControlCall (ac_prompt p st.subject st.age (lower c.subject)) = Except.ok a) :
    Event.runAgent access_control_agent (ac_prompt p st.subject st.age (lower c.subject))
      ∈ (ask_question env n q p).1 ∧
    ((∃ r, Event.printDenied r ∈ (ask_question env n q p).1) ↔ a.allowed = false) := by
  cases hal : a.allowed with
  | false =>
    have hb : tryBody env n q p =
        ([Event.dbLookup n, Event.runAgent guardrail_agent q, Event.runAgent classifier_agent q,
          Event.runAgent access_control_agent (ac_prompt p st.subject st.age (lower c.subject)),
          Event.printDenied a.reasoning], Except.ok ()) := by
      unfold tryBody get_student
      rw [hs, hg]
      simp [hh, hc, ha, hal]
    have hr := ask_of_ok env n q p _ hb
    refine ⟨by simp [hr], ?_⟩
    simp [hr, hal]
  | true =>
    cases htc : env.tutorCall (tutorOf (lower c.subject)) q ⟨st.subject, st.age⟩ with
    | error e =>
      have hb : tryBody env n q p =
          ([Event.dbLookup n, Event.runAgent guardrail_agent q, Event.runAgent classifier_agent q,
            Event.runAgent access_control_agent (ac_prompt p st.subject st.age (lower c.subject)),
            Event.runAgent (tutorOf (lower c.subject)) q], Except.error e) := by
        unfold tryBody get_student
        rw [hs, hg]
        cases hq : lower c.subject == "math" <;>
          (simp [tutorOf, hq] at htc
           simp [hh, hc, ha, hal, hq, tutorOf, htc])
      cases e with
      | tripwire =>
        have hr := ask_of_tripwire env n q p _ hb
        refine ⟨by simp [hr], ?_⟩
        simp [hr, hal]
      | valueError m =>
        have hr := ask_of_valueError env n q p _ _ hb
        refine ⟨by simp [hr], ?_⟩
        simp [hr, hal]
      | other m =>
        have hr := ask_of_other env n q p _ _ hb
        refine ⟨by simp [hr], ?_⟩
        simp [hr, hal]
    | ok ans =>
      have hb : tryBody env n q p =
          ([Event.dbLookup n, Event.runAgent guardrail_agent q, Event.runAgent classifier_agent q,
            Event.runAgent access_control_agent (ac_prompt p st.subject st.age (lower c.subject)),
            Event.runAgent (tutorOf (lower c.subject)) q,
            Event.printAsked n st.age q, Event.printAnswer ans], Except.ok ()) := by
        unfold tryBody get_student
        rw [hs, hg]
        cases hq : lower c.subject == "math" <;>
          (simp [tutorOf, hq] at htc
           simp [hh, hc, ha, hal, hq, tutorOf, htc])
      have hr := ask_of_ok env n q p _ hb
      refine ⟨by simp [hr], ?_⟩
      simp [hr, hal]

def alice : Student := ⟨"math", 12⟩

def bob : Student := ⟨"history", 15⟩

/-- A concrete student table with the two registered students. -/
def studentsTable : String → Option Student :=
  fun n => if n == "alice" then some alice else if n == "bob" then some bob else none

/-- A concrete environment for a fully successful math run. -/
def env0 : Env :=
  ⟨studentsTable,
   fun _ => Except.ok ⟨true, "arithmetic homework"⟩,
   fun _ _ => Except.ok ⟨"math"⟩,
   fun _ => Except.ok ⟨true, "policy permits"⟩,
   fun _ _ _ => Except.ok "63"⟩

/-- An environment whose guardrail verdict rejects the question. -/
def envBlocked : Env :=
  ⟨studentsTable,
   fun _ => Except.ok ⟨false, "not homework"⟩,
   env0.classifierCall, env0.accessControlCall, env0.tutorCall⟩

/-- An environment whose access-control verdict denies the question. -/
def envDenied : Env :=
  ⟨studentsTable, env0.guardrailCall, env0.classifierCall,
   fun _ => Except.ok ⟨false, "policy forbids"⟩,
   env0.tutorCall⟩

/-- An environment whose classifier returns a subject outside the closed set. -/
def envScience : Env :=
  ⟨studentsTable, env0.guardrailCall,
   fun _ _ => Except.ok ⟨"Science"⟩,
   env0.accessControlCall,
   fun _ _ _ => Except.ok "an essay"⟩

/-- An environment whose classifier call fails with an external fault. -/
def envFault : Env :=
  ⟨studentsTable, env0.guardrailCall,
   fun _ _ => Except.error (Exn.other "connection reset"),
   env0.accessControlCall, env0.tutorCall⟩

theorem env0_wf : EnvWF env0 :=
  ⟨fun _ _ h => by simp [env0] at h,
   fun _ _ _ h => by simp [env0] at h,
   fun _ _ h => by simp [env0] at h,
   fun _ _ _ _ h => by simp [env0] at h⟩

theorem envFault_wf : EnvWF envFault :=
  ⟨fun _ _ h => by simp [envFault, env0] at h,
   fun _ _ e h => by
     simp [envFault] at h
     exact ⟨"connection reset", h.symm⟩,
   fun _ _ h => by simp [envFault, env0] at h,
   fun _ _ _ _ h => by simp [envFault, env0] at h⟩

/-- C5, counterexample to the claim as stated: a run in which the classifier
call fails produces zero terminal outcomes, not exactly one. -/
theorem C5_counterexample :
    (ask_question envFault "alice" "What is 9 times 7?" "allow everything").2 =
      Except.error (Exn.other "connection reset") ∧
    countTerminal (ask_question envFault "alice" "What is 9 times 7?" "allow everything").1 = 0 := by
  constructor <;> rfl

theorem C1_witness :
    ask_question envBlocked "alice" "is water wet" "allow everything" =
      ([Event.dbLookup "alice", Event.runAgent guardrail_agent "is water wet",
        Event.printBlocked "not homework"], Except.ok ()) :=
  (C1_guardrail_blocks envBlocked "alice" "is water wet" "allow everything" alice
    ⟨false, "not homework"⟩ rfl rfl rfl).1

theorem C2_witness :
    ask_question envDenied "alice" "Solve for x: 2x=10" "students may not ask math" =
      ([Event.dbLookup "alice", Event.runAgent guardrail_agent "Solve for x: 2x=10",
        Event.runAgent classifier_agent "Solve for x: 2x=10",
        Event.runAgent access_control_agent
          (ac_prompt "students may not ask math" "math" 12 "math"),
        Event.printDenied "policy forbids"], Except.ok ()) :=
  (C2_access_denies envDenied "alice" "Solve for x: 2x=10" "students may not ask math" alice
    ⟨true, "arithmetic homework"⟩ ⟨"math"⟩ ⟨false, "policy forbids"⟩ rfl rfl rfl rfl rfl rfl).1

theorem C3_witness :
    ask_question env0 "carol" "What is 9 times 7?" "allow everything" =
      ([Event.dbLookup "carol",
        Event.printValueError ("No student found with name " ++ "carol")], Except.ok ()) :=
  (C3_unknown_student env0 "carol" "What is 9 times 7?" "allow everything" rfl).1

theorem C4_witness :
    ask_question env0 "alice" "What is 9 times 7?" "allow everything" =
      ([Event.dbLookup "alice", Event.runAgent guardrail_agent "What is 9 times 7?",
        Event.runAgent classifier_agent "What is 9 times 7?",
        Event.runAgent access_control_agent (ac_prompt "allow everything" "math" 12 "math"),
        Event.runAgent (tutorOf "math") "What is 9 times 7?",
        Event.printAsked "alice" 12 "What is 9 times 7?", Event.printAnswer "63"],
        Except.ok ()) :=
  (C4_tutor_dispatch env0 "alice" "What is 9 times 7?" "allow everything" alice
    ⟨true, "arithmetic homework"⟩ ⟨"math"⟩ ⟨true, "policy permits"⟩ "63"
    rfl rfl rfl rfl rfl rfl rfl).1

theorem C5_witness :
    countTerminal (ask_question env0 "alice" "What is 9 times 7?" "allow everything").1 = 1 :=
  (C5_one_terminal_outcome env0 env0_wf "alice" "What is 9 times 7?" "allow everything").1 rfl

theorem C6_witness :
    ask_question envFault "alice" "What is 9 times 7?" "allow everything" =
      ((tryBody envFault "alice" "What is 9 times 7?" "allow everything").1,
        Except.error (Exn.other "connection reset")) :=
  (C6_fault_propagation envFault envFault_wf "alice" "What is 9 times 7?"
    "allow everything").2.1 "connection reset" rfl

theorem C7_witness :
    ask_question env0 "alice" "What is 9 times 7?" "allow everything" =
      ask_question env0 "alice" "What is 9 times 7?" "allow everything" :=
  C7_deterministic env0 env0 (fun _ => rfl) (fun _ => rfl) (fun _ _ => rfl) (fun _ => rfl)
    (fun _ _ _ => rfl) "alice" "What is 9 times 7?" "allow everything"

theorem C8_witness :
    Event.runAgent access_control_agent (ac_prompt "allow everything" "math" 12 "math")
      ∈ (ask_question env0 "alice" "What is 9 times 7?" "allow everything").1 :=
  (C8_access_control_inputs env0 "alice" "What is 9 times 7?" "allow everything" alice
    ⟨true, "arithmetic homework"⟩ ⟨"math"⟩ ⟨true, "policy permits"⟩ rfl rfl rfl rfl rfl).1

theorem C9_witness :
    ask_question envScience "bob" "Why do volcanoes erupt?" "allow everything" =
      ([Event.dbLookup "bob", Event.runAgent guardrail_agent "Why do volcanoes erupt?",
        Event.runAgent classifier_agent "Why do volcanoes erupt?",
        Event.runAgent access_control_agent (ac_prompt "allow everything" "history" 15 "science"),
        Event.runAgent history_tutor_agent "Why do volcanoes erupt?",
        Event.printAsked "bob" 15 "Why do volcanoes erupt?", Event.printAnswer "an essay"],
        Except.ok ()) :=
  (C9_history_fallback envScience "bob" "Why do volcanoes erupt?" "allow everything" bob
    ⟨true, "arithmetic homework"⟩ ⟨"Science"⟩ ⟨true, "policy permits"⟩ "an essay"
    rfl rfl rfl rfl rfl rfl (by decide) rfl).1

theorem C10_witness :
    guardrail_agent.input_guardrails = [] ∧ classifier_agent.input_guardrails = [] ∧
    math_tutor_agent.input_guardrails = [] ∧ history_tutor_agent.input_guardrails = [] ∧
    access_control_agent.input_guardrails = [] := by
  have h := C10_tripwire_handler_dead env0 env0_wf "alice" "What is 9 times 7?" "allow everything"
  exact ⟨h.1, h.2.1, h.2.2.1, h.2.2.2.1, h.2.2.2.2.1⟩
